import Mathlib

/-!
Shallow embedding of the artifact-identity and artifact-store subsystem of the
`embera` repository (`src/embera/interfaces/database.py` and
`src/embera/interfaces/embedding.py`), together with theorems settling the
frozen claims about it.
-/

namespace Embera

/-- A Python value appearing as a node label or a bias in the repository's
fingerprinting code: either an `int` or a `str`.  (`EmberaDataBase.__graph_key`
and `EmberaDataBase.id_bqm` feed such values to Python's built-in `hash`.) -/
inductive PyVal where
  | int (n : Nat)
  | str (s : String)
deriving DecidableEq

/-- Python's built-in `hash`, shallowly embedded.  CPython hashes a nonnegative
`int` to itself modulo `2^61 - 1`, independently of any process seed, while the
hash of a `str` is keyed by the per-process random seed (`PYTHONHASHSEED`); the
parameter `sigma` is that process-dependent string-hash function.  Two distinct
processes correspond to two distinct `sigma`. -/
def pyHash (sigma : String → Nat) : PyVal → Nat
  | .int n => n % (2 ^ 61 - 1)
  | .str s => sigma s

/-- Stand-in for CPython's hash of a tuple whose element hashes are `l`.
CPython's tuple hash is a fixed, seed-independent combiner of the element
hashes; we model it by a fixed deterministic combiner.  Every theorem below
depends only on its determinism and on its distinguishing a few small concrete
inputs, never on the exact numeric values. -/
def tupleHash (l : List Nat) : Nat := l.foldl (fun acc h => acc * 31 + h + 1) 7

/-- Python's `sorted` on a list of nonnegative ints: ascending order. -/
def pySorted (l : List Nat) : List Nat := List.insertionSort (· ≤ ·) l

/-- The list `[hash(u)^hash(v) for u,v in edgelist]` built by
`EmberaDataBase.__graph_key` (database.py line 111). -/
def edgeXors (sigma : String → Nat) (edges : List (PyVal × PyVal)) : List Nat :=
  edges.map (fun e => Nat.xor (pyHash sigma e.1) (pyHash sigma e.2))

/-- `EmberaDataBase.__graph_key` (database.py lines 104-111):
`hash(tuple(sorted([hash(u)^hash(v) for u,v in edgelist])))`. -/
def graph_key (sigma : String → Nat) (edges : List (PyVal × PyVal)) : Nat :=
  tupleHash (pySorted (edgeXors sigma edges))

/-- `EmberaDataBase.id_bqm` on a `dimod.BinaryQuadraticModel` (database.py
lines 89-92): `lin_key = [hash(v)^hash(bias) ...]`,
`quad_key = [hash(u)^hash(v)^hash(bias) ...]`, and the id is
`str(hash(tuple(sorted(lin_key)))^hash(tuple(sorted(quad_key))))`. -/
def id_bqm_key (sigma : String → Nat)
    (linear : List (PyVal × PyVal))
    (quadratic : List ((PyVal × PyVal) × PyVal)) : String :=
  let lin_key := linear.map (fun vb => Nat.xor (pyHash sigma vb.1) (pyHash sigma vb.2))
  let quad_key := quadratic.map
    (fun uvb => Nat.xor (Nat.xor (pyHash sigma uvb.1.1) (pyHash sigma uvb.1.2)) (pyHash sigma uvb.2))
  toString (Nat.xor (tupleHash (pySorted lin_key)) (tupleHash (pySorted quad_key)))

/-- Python `dict` lookup (`d.get(k)`) on an insertion-ordered association list. -/
def dictGet [DecidableEq κ] : List (κ × ν) → κ → Option ν
  | [], _ => none
  | kv :: rest, k => if kv.1 = k then some kv.2 else dictGet rest k

/-- Python `dict` assignment (`d[k] = v`): replaces the value in place if the
key is present, otherwise appends the new binding (insertion order). -/
def dictSet [DecidableEq κ] : List (κ × ν) → κ → ν → List (κ × ν)
  | [], k, v => [(k, v)]
  | kv :: rest, k, v => if kv.1 = k then (kv.1, v) :: rest else kv :: dictSet rest k v

/-- The mutable state of an `EmberaDataBase` relevant to identity computation:
the `'source'` and `'target'` sub-tables of `self.aliases`, plus a count of how
many times `update_aliases()` has flushed the alias document to disk. -/
structure AliasState where
  sourceAliases : List (String × String)
  targetAliases : List (String × String)
  flushCount : Nat
deriving DecidableEq

/-- A fresh database state (no aliases registered, nothing flushed). -/
def st0 : AliasState := ⟨[], [], 0⟩

/-- An input to `id_source` / `id_target`: a `networkx.Graph` (which always
carries a `name` attribute, `""` by default), a plain list of edge tuples
(which has no `name` attribute), or a `str`. -/
inductive GraphInput where
  | graph (name : String) (edges : List (PyVal × PyVal))
  | edges (l : List (PyVal × PyVal))
  | str (s : String)

/-- `EmberaDataBase.id_source` (database.py lines 113-122), with its side
effects on the database state made explicit.  For a graph input the id is
`str(self.__graph_key(source))`; then, because every `networkx.Graph` has a
`name` attribute, `set_source_alias(id, source.name)` runs: it first resolves
`id` through `id_source` again (string branch: alias lookup with literal
fallback), stores `name ↦ resolved` in `self.aliases['source']`, and calls
`update_aliases()`, which rewrites the alias document.  A plain edge list has
no `name` attribute, and a `str` input is only resolved. -/
def id_source (sigma : String → Nat) (st : AliasState) :
    GraphInput → String × AliasState
  | .str s => ((dictGet st.sourceAliases s).getD s, st)
  | .edges l => (toString (graph_key sigma l), st)
  | .graph name edges =>
      let id := toString (graph_key sigma edges)
      let resolved := (dictGet st.sourceAliases id).getD id
      (id, { st with sourceAliases := dictSet st.sourceAliases name resolved,
                     flushCount := st.flushCount + 1 })

/-- `EmberaDataBase.id_target` (database.py lines 124-133); identical to
`id_source` except it uses the `'target'` alias sub-table. -/
def id_target (sigma : String → Nat) (st : AliasState) :
    GraphInput → String × AliasState
  | .str s => ((dictGet st.targetAliases s).getD s, st)
  | .edges l => (toString (graph_key sigma l), st)
  | .graph name edges =>
      let id := toString (graph_key sigma edges)
      let resolved := (dictGet st.targetAliases id).getD id
      (id, { st with targetAliases := dictSet st.targetAliases name resolved,
                     flushCount := st.flushCount + 1 })

/-- A string-hash seed function modelling one process. -/
def sigmaA : String → Nat := fun s => if s = "b" then 1 else 0

/-- A string-hash seed function modelling a second process with a different
`PYTHONHASHSEED` (it maps `"b"` differently). -/
def sigmaB : String → Nat := fun s => if s = "b" then 2 else 0

/-- A node relabeling of the two-node graph `{0,1}`: it maps `0 ↦ 0`, `1 ↦ 2`,
a bijection of the node set `{0,1}` onto `{0,2}`. -/
def relabel12 : Nat → Nat := fun n => if n = 1 then 2 else n

/-- Applies a node relabeling to an integer-labelled node. -/
def mapNode (f : Nat → Nat) : PyVal → PyVal
  | .int n => .int (f n)
  | .str s => .str s

/-- Applies a node relabeling to every edge of an edge list. -/
def relabelEdges (f : Nat → Nat) (l : List (PyVal × PyVal)) : List (PyVal × PyVal) :=
  l.map (fun e => (mapNode f e.1, mapNode f e.2))

/-- Claim C1 (code_bug): fingerprinting is NOT deterministic across processes.
For the fixed graph with the single edge `("a","b")` (and for the fixed BQM
with linear part `{"b": 0}` and empty quadratic part), the identity strings
returned by `id_source` / `id_bqm` under two different process string-hash
seeds differ, because `__graph_key` and `id_bqm` hash the node labels with
Python's per-process-seeded `hash`. -/
theorem id_source_depends_on_process_hash_seed :
    (id_source sigmaA st0 (.graph "" [(PyVal.str "a", PyVal.str "b")])).1
      ≠ (id_source sigmaB st0 (.graph "" [(PyVal.str "a", PyVal.str "b")])).1
    ∧ id_bqm_key sigmaA [(PyVal.str "b", PyVal.int 0)] []
      ≠ id_bqm_key sigmaB [(PyVal.str "b", PyVal.int 0)] [] := by
  constructor <;> decide

/-- Claim C3, counterexample: fingerprinting is NOT relabel-invariant.  The
single-edge graph `0 — 1`, relabeled by the bijection `0 ↦ 0, 1 ↦ 2` of its
node set, fingerprints differently, because `__graph_key` hashes the concrete
node labels. -/
theorem graph_key_not_relabel_invariant :
    relabelEdges relabel12 [(PyVal.int 0, PyVal.int 1)] = [(PyVal.int 0, PyVal.int 2)]
    ∧ relabel12 0 ≠ relabel12 1
    ∧ graph_key sigmaA [(PyVal.int 0, PyVal.int 1)]
        ≠ graph_key sigmaA [(PyVal.int 0, PyVal.int 2)] := by
  refine ⟨by decide, by decide, by decide⟩

/-- Claim C3, amended: the fingerprint of `__graph_key` is invariant exactly
under transformations of the edge list that preserve the multiset of per-edge
label-hash XOR values (in particular: reordering the edge list and swapping
the endpoints of any edge), not under general node relabelings. -/
theorem graph_key_perm_invariant (sigma : String → Nat)
    (l1 l2 : List (PyVal × PyVal))
    (h : (edgeXors sigma l1).Perm (edgeXors sigma l2)) :
    graph_key sigma l1 = graph_key sigma l2 := by
  unfold graph_key pySorted
  congr 1
  exact List.eq_of_perm_of_sorted
    (((List.perm_insertionSort _ _).trans h).trans (List.perm_insertionSort _ _).symm)
    (List.sorted_insertionSort _ _) (List.sorted_insertionSort _ _)

/-- Witness for `graph_key_perm_invariant`: a concrete reversed edge list with
swapped endpoints has a permuted XOR list and an equal fingerprint. -/
theorem graph_key_perm_invariant_witness :
    (edgeXors sigmaA [(PyVal.int 0, PyVal.int 1), (PyVal.int 5, PyVal.int 6)]).Perm
      (edgeXors sigmaA [(PyVal.int 6, PyVal.int 5), (PyVal.int 1, PyVal.int 0)])
    ∧ graph_key sigmaA [(PyVal.int 0, PyVal.int 1), (PyVal.int 5, PyVal.int 6)]
      = graph_key sigmaA [(PyVal.int 6, PyVal.int 5), (PyVal.int 1, PyVal.int 0)] :=
  ⟨by decide,
   graph_key_perm_invariant sigmaA
     [(PyVal.int 0, PyVal.int 1), (PyVal.int 5, PyVal.int 6)]
     [(PyVal.int 6, PyVal.int 5), (PyVal.int 1, PyVal.int 0)] (by decide)⟩

/-- Assigning a key in a Python dict makes it retrievable: `d[k] = v; d.get(k) == v`. -/
theorem dictGet_dictSet_self [DecidableEq κ] (d : List (κ × ν)) (k : κ) (v : ν) :
    dictGet (dictSet d k v) k = some v := by
  induction d with
  | nil => simp [dictSet, dictGet]
  | cons kv rest ih =>
    by_cases h : kv.1 = k
    · simp [dictSet, dictGet, h]
    · simp [dictSet, dictGet, h, ih]

/-- Claim C10 (confirmed): computing the identity of a graph is not
side-effect-free.  `id_source` (resp. `id_target`) on any input carrying a
`name` attribute — every `networkx.Graph`, whose `name` defaults to `""` —
registers `name ↦ fingerprint` in the database's `'source'` (resp. `'target'`)
alias table and flushes the alias document (`update_aliases()`), even though
the caller only asked for the identity string.  (The hypotheses rule out the
degenerate state in which the fingerprint string itself is registered as an
alias name, in which case the registered value is its resolution instead.) -/
theorem id_source_registers_alias_and_flushes (sigma : String → Nat)
    (st : AliasState) (name : String) (edges : List (PyVal × PyVal))
    (hs : dictGet st.sourceAliases (toString (graph_key sigma edges)) = none)
    (ht : dictGet st.targetAliases (toString (graph_key sigma edges)) = none) :
    dictGet ((id_source sigma st (.graph name edges)).2.sourceAliases) name
      = some ((id_source sigma st (.graph name edges)).1)
    ∧ (id_source sigma st (.graph name edges)).2.flushCount = st.flushCount + 1
    ∧ dictGet ((id_target sigma st (.graph name edges)).2.targetAliases) name
      = some ((id_target sigma st (.graph name edges)).1)
    ∧ (id_target sigma st (.graph name edges)).2.flushCount = st.flushCount + 1 := by
  refine ⟨?_, rfl, ?_, rfl⟩
  · simp [id_source, hs, dictGet_dictSet_self]
  · simp [id_target, ht, dictGet_dictSet_self]

/-- Witness for `id_source_registers_alias_and_flushes` at a fresh database
state and the concrete unnamed graph `0 — 1`. -/
theorem id_source_registers_alias_and_flushes_witness :
    dictGet st0.sourceAliases (toString (graph_key sigmaA [(PyVal.int 0, PyVal.int 1)])) = none
    ∧ dictGet st0.targetAliases (toString (graph_key sigmaA [(PyVal.int 0, PyVal.int 1)])) = none
    ∧ (dictGet ((id_source sigmaA st0 (.graph "" [(PyVal.int 0, PyVal.int 1)])).2.sourceAliases) ""
        = some ((id_source sigmaA st0 (.graph "" [(PyVal.int 0, PyVal.int 1)])).1)
      ∧ (id_source sigmaA st0 (.graph "" [(PyVal.int 0, PyVal.int 1)])).2.flushCount = st0.flushCount + 1
      ∧ dictGet ((id_target sigmaA st0 (.graph "" [(PyVal.int 0, PyVal.int 1)])).2.targetAliases) ""
        = some ((id_target sigmaA st0 (.graph "" [(PyVal.int 0, PyVal.int 1)])).1)
      ∧ (id_target sigmaA st0 (.graph "" [(PyVal.int 0, PyVal.int 1)])).2.flushCount = st0.flushCount + 1) :=
  ⟨rfl, rfl,
   id_source_registers_alias_and_flushes sigmaA st0 "" [(PyVal.int 0, PyVal.int 1)] rfl rfl⟩

/-- The content of an `embera.Embedding` (embedding.py): a `dict` subclass
mapping each problem variable to its chain of target nodes, modelled as the
insertion-ordered list of items.  (The `source_id`/`target_id` attributes feed
only the Python object hash, which is abstracted as a parameter below.) -/
structure Embedding where
  chains : List (Nat × List Nat)
deriving DecidableEq

/-- `[len(c) for c in self.values()]` (embedding.py line 33). -/
def chainSizes (e : Embedding) : List Nat := e.chains.map (fun c => c.2.length)

/-- `Embedding.chain_histogram` (embedding.py lines 31-37): the items of the
dict `{size: multiplicity}`.  The Python dict holds each distinct size exactly
once; the item order is immaterial because `quality_key` fully sorts it. -/
def histItems (sizes : List Nat) : List (Nat × Nat) :=
  sizes.dedup.map (fun s => (s, sizes.count s))

/-- `sorted(hist.items(), reverse=True)`'s comparison: descending lexicographic
order on `(size, multiplicity)` pairs. -/
def pairLeDesc (a b : Nat × Nat) : Bool :=
  Nat.blt b.1 a.1 || (b.1 == a.1 && Nat.ble b.2 a.2)

/-- Insertion step of an insertion sort with a boolean comparison. -/
def insertBy (le : α → α → Bool) (x : α) : List α → List α
  | [] => [x]
  | y :: ys => if le x y then x :: y :: ys else y :: insertBy le x ys

/-- Insertion sort with a boolean comparison (models Python's `sorted`/`sort`
where only concrete evaluations are needed). -/
def sortBy (le : α → α → Bool) : List α → List α
  | [] => []
  | x :: xs => insertBy le x (sortBy le xs)

/-- `Embedding.quality_key` (embedding.py lines 79-83): the chain-size
histogram's entries sorted descending and flattened,
`[value for item in sorted(hist.items(), reverse=True) for value in item]`. -/
def quality_key (e : Embedding) : List Nat :=
  (sortBy pairLeDesc (histItems (chainSizes e))).foldr (fun p acc => p.1 :: p.2 :: acc) []

/-- `Embedding.max_chain` (embedding.py lines 69-72): `hist = self.quality_key;
return hist.pop()` — Python's `pop()` removes and returns the LAST element of
the list; `none` models the `IndexError` raised on an empty key. -/
def max_chain (e : Embedding) : Option Nat := (quality_key e).getLast?

/-- `sum([QK[i]*QK[i+1] for i in range(0,len(QK),2)])` (embedding.py line 77);
the quality key always has even length, so the odd-tail fallback is dead. -/
def pairProdSum : List Nat → Nat
  | a :: b :: rest => a * b + pairProdSum rest
  | _ => 0

/-- `Embedding.total_qubits` (embedding.py lines 74-77). -/
def total_qubits (e : Embedding) : Nat := pairProdSum (quality_key e)

/-- The size of the largest chain of the embedding — the quantity the spec
calls "max chain length" (spec-side referent, for comparison with
`max_chain`). -/
def spec_max_chain_length (e : Embedding) : Nat := (chainSizes e).foldr Nat.max 0

/-- `f"{h:08}"[-8:]` (embedding.py line 91): the last 8 characters of the
zero-padded decimal rendering of the object hash. -/
def lastN (n : Nat) (s : String) : String := String.mk ((s.toList.reverse.take n).reverse)

/-- Zero-pads a decimal string on the left to width 8 (`f"{h:08}"`). -/
def padTo8 (s : String) : String := String.mk (List.replicate (8 - s.length) '0') ++ s

/-- The hash-derived suffix of an embedding id (embedding.py line 91). -/
def hashSuffix (h : Nat) : String := lastN 8 (padTo8 (toString h))

/-- `Embedding.id` (embedding.py lines 85-92): the quality key rendered as a
digit string (`"EMPTY"` for an embedding with no chains), an underscore, and
the hash suffix.  `hashFn` abstracts `self.__hash__()` — CPython's hash of the
`(source_id, target_id, sorted chain items)` tuple, a fixed seed-independent
function of the embedding's integer content whose exact values are irrelevant
to every theorem below. -/
def embedding_id (hashFn : Embedding → Nat) (e : Embedding) : String :=
  (if e.chains = [] then "EMPTY" else String.join ((quality_key e).map toString))
    ++ "_" ++ hashSuffix (hashFn e)

/-- Python's `<` on lists of nonnegative ints (used by `Embedding.__lt__` on
quality keys): lexicographic, with a proper prefix comparing less. -/
def pyListLt : List Nat → List Nat → Bool
  | _, [] => false
  | [], _ :: _ => true
  | a :: as, b :: bs => if a < b then true else if a = b then pyListLt as bs else false

/-- `Embedding.__lt__` (embedding.py lines 107-108):
`self.quality_key < other.quality_key`. -/
def embLt (a b : Embedding) : Bool := pyListLt (quality_key a) (quality_key b)

/-- A concrete `Embedding.__hash__` stand-in (exact value irrelevant). -/
def hash0 : Embedding → Nat := fun _ => 0

/-- An embedding with chain-size multiset `{1,1,1}`. -/
def e111 : Embedding := ⟨[(0, [0]), (1, [1]), (2, [2])]⟩

/-- An embedding with chain-size multiset `{1,1,2}`. -/
def e112 : Embedding := ⟨[(0, [0]), (1, [1]), (2, [2, 3])]⟩

/-- An embedding with a single chain of three qubits. -/
def e3 : Embedding := ⟨[(0, [0, 1, 2])]⟩

/-- Python `<` on lists is irreflexive. -/
theorem pyListLt_irrefl : ∀ l : List Nat, pyListLt l l = false
  | [] => rfl
  | a :: as => by simp [pyListLt, pyListLt_irrefl as]

/-- Python `<` on lists is transitive. -/
theorem pyListLt_trans : ∀ a b c : List Nat,
    pyListLt a b = true → pyListLt b c = true → pyListLt a c = true
  | _, [], _, hab, _ => by simp [pyListLt] at hab
  | _, _ :: _, [], _, hbc => by simp [pyListLt] at hbc
  | [], _ :: _, _ :: _, _, _ => rfl
  | a :: as, b :: bs, c :: cs, hab, hbc => by
    simp only [pyListLt] at hab hbc ⊢
    by_cases h1 : a < b
    · by_cases h2 : b < c
      · simp [Nat.lt_trans h1 h2]
      · rw [if_neg h2] at hbc
        by_cases h3 : b = c
        · subst h3; simp [h1]
        · simp [h3] at hbc
    · rw [if_neg h1] at hab
      by_cases h3 : a = b
      · subst h3
        rw [if_pos rfl] at hab
        by_cases h2 : a < c
        · simp [h2]
        · rw [if_neg h2] at hbc ⊢
          by_cases h4 : a = c
          · rw [if_pos h4] at hbc ⊢
            exact pyListLt_trans as bs cs hab hbc
          · simp [h4] at hbc
      · simp [h3] at hab

/-- Python `<` on lists of ints satisfies trichotomy. -/
theorem pyListLt_total : ∀ a b : List Nat,
    pyListLt a b = true ∨ a = b ∨ pyListLt b a = true
  | [], [] => Or.inr (Or.inl rfl)
  | [], _ :: _ => Or.inl rfl
  | _ :: _, [] => Or.inr (Or.inr rfl)
  | a :: as, b :: bs => by
    rcases Nat.lt_trichotomy a b with h | h | h
    · exact Or.inl (by simp [pyListLt, h])
    · subst h
      rcases pyListLt_total as bs with h2 | h2 | h2
      · exact Or.inl (by simp [pyListLt, h2])
      · exact Or.inr (Or.inl (by rw [h2]))
      · exact Or.inr (Or.inr (by simp [pyListLt, h2]))
    · exact Or.inr (Or.inr (by simp [pyListLt, h]))

/-- Claim C7 (confirmed): the quality-key comparison used by
`Embedding.__lt__` is a strict total order on quality keys — irreflexive,
transitive, and any two embeddings are comparable or have equal quality
keys — and the embedding with chain-size multiset `{1,1,1}` (key `[1,3]`)
compares strictly less than the one with `{1,1,2}` (key `[2,1,1,2]`). -/
theorem quality_key_order_total_and_example :
    (∀ l : List Nat, pyListLt l l = false)
    ∧ (∀ a b c : List Nat, pyListLt a b = true → pyListLt b c = true → pyListLt a c = true)
    ∧ (∀ a b : Embedding, embLt a b = true ∨ quality_key a = quality_key b ∨ embLt b a = true)
    ∧ embLt e111 e112 = true :=
  ⟨pyListLt_irrefl, pyListLt_trans,
   fun a b => pyListLt_total (quality_key a) (quality_key b), by decide⟩

/-- Witness for `quality_key_order_total_and_example`: its transitivity
component applied at concrete quality keys. -/
theorem quality_key_order_total_and_example_witness :
    pyListLt [1, 3] [2, 1] = true ∧ pyListLt [2, 1] [2, 2] = true
    ∧ pyListLt [1, 3] [2, 2] = true :=
  ⟨by decide, by decide,
   quality_key_order_total_and_example.2.1 [1, 3] [2, 1] [2, 2] (by decide) (by decide)⟩

/-- Claim C6 (code_bug): on the non-empty embedding `{0: [0,1,2]}` (one chain
of three qubits, quality key `[3, 1]`), `Embedding.max_chain` evaluates to `1`
— `quality_key.pop()` returns the key's LAST entry, the multiplicity of the
smallest chain size — while the largest chain has size `3`; `total_qubits`
does return the sum of the chain sizes. -/
theorem max_chain_wrong_on_single_chain :
    quality_key e3 = [3, 1]
    ∧ max_chain e3 = some 1
    ∧ spec_max_chain_length e3 = 3
    ∧ max_chain e3 ≠ some (spec_max_chain_length e3)
    ∧ total_qubits e3 = 3
    ∧ (chainSizes e3).sum = 3 :=
  ⟨by decide, by decide, by decide, by decide, by decide, by decide⟩

/-- Python error kinds raised by the modelled code paths. -/
inductive PyErr where
  | typeError
  | valueError (msg : String)
  | fileNotFoundError
  | isADirectoryError
  | indexError
deriving DecidableEq

/-- An input to `EmberaDataBase.id_embedding`: an `embera.Embedding`, a plain
chain-mapping `dict`, a `str`, or anything else. -/
inductive EmbeddingInput where
  | emb (e : Embedding)
  | dict (d : List (Nat × List Nat))
  | str (s : String)
  | otherKind

/-- `EmberaDataBase.id_embedding` (database.py lines 135-144).  The `dict`
branch executes `Embedding(embedding).id`, but `Embedding.__init__` is
`__init__(self, source, target, embedding, **properties)` (embedding.py line
11): the call supplies one positional argument where three are required, so
Python raises `TypeError` before the constructor body runs.  The final branch
raises the unsupported-input-kind `ValueError`. -/
def id_embedding (hashFn : Embedding → Nat) (embAliases : List (String × String)) :
    EmbeddingInput → Except PyErr String
  | .emb e => .ok (embedding_id hashFn e)
  | .dict _ => .error .typeError
  | .str s => .ok ((dictGet embAliases s).getD s)
  | .otherKind => .error (.valueError "Embedding must be embera.Embedding, dict, or str")

/-- Claim C4 (code_bug): fingerprinting an embedding supplied as a plain
chain-mapping dict does NOT succeed — it raises `TypeError` (`Embedding(embedding)`
passes one positional argument to the three-positional-parameter constructor)
— while a structured `Embedding` input does return the quality-key-plus-suffix
id and only an unrecognized input kind raises the unsupported-kind
`ValueError`. -/
theorem id_embedding_dict_raises_type_error :
    id_embedding hash0 [] (.dict [(0, [0])]) = .error .typeError
    ∧ id_embedding hash0 [] .otherKind
        = .error (.valueError "Embedding must be embera.Embedding, dict, or str")
    ∧ id_embedding hash0 [] (.emb e111) = .ok "13_00000000" :=
  ⟨rfl, rfl, rfl⟩

/-- Python's `<` on strings: lexicographic comparison of code points. -/
def charListLt : List Char → List Char → Bool
  | _, [] => false
  | [], _ :: _ => true
  | a :: as, b :: bs =>
      if a.toNat < b.toNat then true else if a = b then charListLt as bs else false

/-- Python's `<` on strings, on the underlying character lists. -/
def pyStrLt (a b : String) : Bool := charListLt a.toList b.toList

/-- `EmberaDataBase.load_embedding` (database.py lines 315-354): takes the
directory listing returned by `os.listdir` — entry order is
filesystem-dependent and the function applies NO sort — raises
`ValueError("No embeddings found.")` on an empty listing, pops the entry at
`index` (`IndexError` if out of range), and deserializes that file. -/
def load_embedding (listing : List (String × Embedding)) (index : Nat) :
    Except PyErr Embedding :=
  if listing = [] then .error (.valueError "No embeddings found.")
  else
    match listing.get? index with
    | some f => .ok f.2
    | none => .error .indexError

/-- `EmberaDataBase.load_embeddings` (database.py lines 290-313): collects the
files under the resolved directory, sorts them by FILENAME
(`sort(key=lambda entry: entry[1])` — Python string order), and deserializes
in that order. -/
def load_embeddings (listing : List (String × Embedding)) : List Embedding :=
  (sortBy (fun a b => pyStrLt a.1 b.1) listing).map (fun f => f.2)

/-- A stored embedding with ten singleton chains: quality key `[1,10]`,
filename `"110_00000000"`. -/
def embTen : Embedding :=
  ⟨[(0, [0]), (1, [1]), (2, [2]), (3, [3]), (4, [4]),
    (5, [5]), (6, [6]), (7, [7]), (8, [8]), (9, [9])]⟩

/-- A stored embedding with four singleton chains: quality key `[1,4]`,
filename `"14_00000000"`. -/
def embFour : Embedding := ⟨[(0, [0]), (1, [1]), (2, [2]), (3, [3])]⟩

/-- The directory listing holding `embTen` and `embFour` under one
(source, target, tags) location, in Python-sorted filename order. -/
def listingTenFour : List (String × Embedding) :=
  [(embedding_id hash0 embTen, embTen), (embedding_id hash0 embFour, embFour)]

/-- Claim C2 (code_bug): retrieval at rank 0 does not return a
quality-minimal embedding.  With `embTen` (key `[1,10]`, filename `"110_…"`)
and `embFour` (key `[1,4]`, filename `"14_…"`) stored at the same location,
the listing above is exactly the filename-sorted order (`"110_…" < "14_…"` as
strings, digit by digit), `load_embeddings` keeps that order, and
`load_embedding ... 0` returns `embTen` — whose quality key `[1,10]` is
strictly GREATER than `embFour`'s `[1,4]`.  No quality-key sort happens:
filename order and quality order disagree, and `load_embedding` does not sort
at all. -/
theorem load_embedding_rank0_not_best :
    embedding_id hash0 embTen = "110_00000000"
    ∧ embedding_id hash0 embFour = "14_00000000"
    ∧ pyStrLt (embedding_id hash0 embTen) (embedding_id hash0 embFour) = true
    ∧ sortBy (fun a b => pyStrLt a.1 b.1) listingTenFour = listingTenFour
    ∧ load_embeddings listingTenFour = [embTen, embFour]
    ∧ load_embedding listingTenFour 0 = .ok embTen
    ∧ pyListLt (quality_key embFour) (quality_key embTen) = true :=
  ⟨by decide, by decide, by decide, by decide, by decide, rfl, by decide⟩

/-- One record of a `dimod.SampleSet`: an assignment, its energy, and its
occurrence count. -/
structure SampleRec where
  assignment : List Int
  energy : Int
  num_occurrences : Nat
deriving DecidableEq

/-- The total occurrence count of a result set. -/
def total_count (s : List SampleRec) : Nat := (s.map (fun r => r.num_occurrences)).sum

/-- `EmberaDataBase.dump_sampleset` (database.py lines 272-287) at one resolved
location: if a result set already exists there, the new one is concatenated
with the stored record — `dimod.concatenate((sampleset, record))` stacks the
records of its arguments, new first, preserving per-sample occurrence counts —
and the file is overwritten with the result; otherwise the new set is written. -/
def dump_sampleset (existing : Option (List SampleRec)) (sampleset : List SampleRec) :
    List SampleRec :=
  match existing with
  | some record => sampleset ++ record
  | none => sampleset

/-- Claim C5 (confirmed): merge-on-write preserves the total occurrence count
and is order-independent.  Writing `A` then `B` to one location stores a set
of total count `count A + count B`, and writing `B` then `A` stores the same
total. -/
theorem dump_sampleset_total_count_order_independent (A B : List SampleRec) :
    total_count (dump_sampleset (some (dump_sampleset none A)) B)
      = total_count A + total_count B
    ∧ total_count (dump_sampleset (some (dump_sampleset none B)) A)
      = total_count A + total_count B := by
  constructor <;> simp [dump_sampleset, total_count, Nat.add_comm]

/-- The class attributes of `embera.interfaces.embedding` that live on the
CLASS object rather than on instances: `Embedding.properties = {}`
(embedding.py line 9), a single dict shared by every instance. -/
structure PyEnv where
  embeddingClassProps : List (String × Nat)
deriving DecidableEq

/-- An `Embedding` INSTANCE's own attributes: the dict content and the
source/target ids assigned in `__init__`.  No `properties` attribute is ever
created on the instance. -/
structure EmbeddingObj where
  chains : List (Nat × List Nat)
  source_id : Nat
  target_id : Nat
deriving DecidableEq

/-- Python `dict.update`: assigns every binding of `kvs` in order. -/
def dictUpdate (d kvs : List (String × Nat)) : List (String × Nat) :=
  kvs.foldl (fun acc kv => dictSet acc kv.1 kv.2) d

/-- `Embedding.__init__` (embedding.py lines 11-29) with integer source/target
ids.  `self.properties.update(properties)` resolves `self.properties` to the
CLASS-level dict (the instance has no such attribute), so the update mutates
the shared class dict, returned here as the new environment. -/
def mk_embedding (env : PyEnv) (source target : Nat) (chains : List (Nat × List Nat))
    (props : List (String × Nat)) : EmbeddingObj × PyEnv :=
  (⟨chains, source, target⟩, ⟨dictUpdate env.embeddingClassProps props⟩)

/-- Reading `e.properties`: the instance has no `properties` attribute, so
attribute lookup falls through to the class dict — the SAME dict for every
instance. -/
def obj_properties (env : PyEnv) (_e : EmbeddingObj) : List (String × Nat) :=
  env.embeddingClassProps

/-- A fresh interpreter environment (empty class dict). -/
def env0 : PyEnv := ⟨[]⟩

/-- A first embedding, constructed with no properties. -/
def mk1 : EmbeddingObj × PyEnv := mk_embedding env0 0 0 [(0, [0])] []

/-- A second, independently constructed embedding with a `method` property. -/
def mk2 : EmbeddingObj × PyEnv := mk_embedding mk1.2 1 1 [(1, [1])] [("method", 7)]

/-- Claim C9 (code_bug): `Embedding` instances do NOT own non-shared
properties mappings.  After constructing a second embedding with a `method`
property, the FIRST embedding's observable `properties` has changed from `{}`
to `{method: 7}` — both instances read the one class-level dict. -/
theorem embedding_properties_shared :
    obj_properties mk1.2 mk1.1 = []
    ∧ obj_properties mk2.2 mk1.1 = [("method", 7)]
    ∧ obj_properties mk2.2 mk1.1 ≠ obj_properties mk1.2 mk1.1
    ∧ obj_properties mk2.2 mk1.1 = obj_properties mk2.2 mk2.1 :=
  ⟨rfl, rfl, by decide, rfl⟩

/-- A stored problem (`dimod.BinaryQuadraticModel` content).  Serialization
(`to_serializable`/`from_serializable` through JSON) is the external dimod
collaborator and round-trips losslessly, so it is modelled as the identity. -/
structure Bqm where
  linear : List (Nat × Int)
  quadratic : List ((Nat × Nat) × Int)
  offset : Int
deriving DecidableEq

/-- The database's file tree: the set of directories that exist (as segment
lists under the database root) and the files, each `(directory, name,
content)`. -/
structure FS where
  dirs : List (List String)
  files : List (List String × String × Bqm)
deriving DecidableEq

/-- The tree `EmberaDataBase.__init__` creates: the root and the `bqms`,
`embeddings` and `samplesets` directories (database.py lines 29-45). -/
def fsInit : FS := ⟨[[], ["bqms"], ["embeddings"], ["samplesets"]], []⟩

/-- The cumulative directory chain walked by `get_path` (database.py lines
146-154): every non-empty prefix of the directory path. -/
def dirChain (d : List String) : List (List String) :=
  (List.range d.length).map (fun i => d.take (i + 1))

/-- `get_path`'s directory creation: `os.mkdir` for every level of the chain
that does not yet exist. -/
def mkdirs (fs : FS) (d : List String) : FS :=
  { fs with dirs := fs.dirs ++ (dirChain d).filter (fun p => decide (p ∉ fs.dirs)) }

/-- Writing a file with `open(path,'w+')`: replaces the content if the file
exists, otherwise creates it. -/
def setFile (files : List (List String × String × Bqm)) (d : List String) (n : String)
    (b : Bqm) : List (List String × String × Bqm) :=
  match files with
  | [] => [(d, n, b)]
  | f :: rest => if f.1 = d ∧ f.2.1 = n then (d, n, b) :: rest else f :: setFile rest d n b

/-- `EmberaDataBase.dump_bqm` (database.py lines 195-204) with the two ids
supplied as parameters (their computation, `id_source`/`id_bqm`, is modelled
above): create the directory chain `bqms/<source_id>/<tags…>` and write the
serialized problem as `<bqm_id>.json` there. -/
def dump_bqm (fs : FS) (source_id bqm_id : String) (bqm : Bqm) (tags : List String) : FS :=
  let d := "bqms" :: source_id :: tags
  let fs' := mkdirs fs d
  { fs' with files := setFile fs'.files d bqm_id bqm }

/-- The name under which a directory `p` appears in a listing of `d`: `p`'s
last segment when `p` is an immediate child of `d`. -/
def immediateChild (d p : List String) : Option String :=
  if p.dropLast = d then p.getLast? else none

/-- `os.listdir`: the names of the files and immediate subdirectories of `d`.
(The real call raises `FileNotFoundError` when `d` does not exist; `load_bqm`
below checks existence first.  Entry order on a real filesystem is
unspecified; this model lists files, then subdirectories.) -/
def listdir (fs : FS) (d : List String) : List String :=
  (fs.files.filter (fun f => decide (f.1 = d))).map (fun f => f.2.1)
    ++ fs.dirs.filterMap (immediateChild d)

/-- Looks up the file `n` in directory `d`. -/
def findFile (fs : FS) (d : List String) (n : String) : Option Bqm :=
  ((fs.files.filter (fun f => decide (f.1 = d ∧ f.2.1 = n))).head?).map (fun f => f.2.2)

/-- `EmberaDataBase.load_bqm` (database.py lines 179-193) with the resolved
source id supplied as a parameter: `os.listdir` on `bqms/<source_id>/<tags…>`
raises `FileNotFoundError` when that directory was never created; an existing
but empty directory raises `ValueError("No BQMs found.")`; otherwise the entry
at `index` is popped (`IndexError` if out of range) and opened — a
subdirectory entry makes `open` raise `IsADirectoryError`, a file entry is
deserialized and returned. -/
def load_bqm (fs : FS) (source_id : String) (tags : List String) (index : Nat) :
    Except PyErr Bqm :=
  let d := "bqms" :: source_id :: tags
  if d ∈ fs.dirs then
    let entries := listdir fs d
    if entries = [] then .error (.valueError "No BQMs found.")
    else
      match entries.get? index with
      | none => .error .indexError
      | some n =>
        match findFile fs d n with
        | some bqm => .ok bqm
        | none => .error .isADirectoryError
  else .error .fileNotFoundError

/-- Claim C8, counterexample: on a freshly initialized store, with no problem
ever stored under source `"S"` and no tags, `load_bqm` fails with
`FileNotFoundError` (the directory `bqms/S` does not exist), NOT with the
not-found `ValueError("No BQMs found.")`. -/
theorem load_bqm_unstored_raises_oserror :
    load_bqm fsInit "S" [] 0 = .error .fileNotFoundError
    ∧ PyErr.fileNotFoundError ≠ PyErr.valueError "No BQMs found." :=
  ⟨rfl, by decide⟩

/-- Every directory created by `EmberaDataBase.__init__` has at most one path
segment. -/
theorem fsInit_dirs_short : ∀ p ∈ fsInit.dirs, p.length ≤ 1 := by
  intro p hp
  simp only [fsInit, List.mem_cons, List.not_mem_nil, or_false] at hp
  rcases hp with rfl | rfl | rfl | rfl <;> simp

/-- A non-empty path is the last element of its own directory chain. -/
theorem mem_dirChain_self (d : List String) (h : d ≠ []) : d ∈ dirChain d := by
  unfold dirChain
  refine List.mem_map.mpr ⟨d.length - 1, List.mem_range.mpr ?_, ?_⟩
  · have : 0 < d.length := List.length_pos.mpr h
    omega
  · have h1 : d.length - 1 + 1 = d.length := by
      have : 0 < d.length := List.length_pos.mpr h
      omega
    rw [h1, List.take_length]

/-- Members of a directory chain are no longer than the path itself. -/
theorem dirChain_length_le (d : List String) : ∀ p ∈ dirChain d, p.length ≤ d.length := by
  intro p hp
  unfold dirChain at hp
  rcases List.mem_map.mp hp with ⟨i, _, rfl⟩
  simp [List.length_take]

/-- A path no longer than `d` is never an immediate child of `d`. -/
theorem immediateChild_eq_none (d p : List String) (h : p.length ≤ d.length) :
    immediateChild d p = none := by
  unfold immediateChild
  split
  · rename_i hdrop
    rcases p with _ | ⟨x, xs⟩
    · rfl
    · exfalso
      have h1 : (x :: xs).dropLast.length = d.length := congrArg List.length hdrop
      simp [List.length_dropLast] at h1
      simp at h
      omega
  · rfl

/-- Claim C8, amended: on a freshly initialized store, `load_bqm` for ANY
source id, tag list and index fails with `FileNotFoundError` — the resolved
directory was never created — rather than the not-found
`ValueError("No BQMs found.")`; and a problem stored by `dump_bqm` under
`(source, tags)` on the fresh store is returned, deserialized, by
`load_bqm (source, tags)` at index 0. -/
theorem load_bqm_error_and_roundtrip :
    (∀ (source_id : String) (tags : List String) (index : Nat),
      load_bqm fsInit source_id tags index = .error .fileNotFoundError)
    ∧ (∀ (source_id bqm_id : String) (bqm : Bqm) (tags : List String),
      load_bqm (dump_bqm fsInit source_id bqm_id bqm tags) source_id tags 0 = .ok bqm) := by
  constructor
  · intro sid tags index
    have hd : ("bqms" :: sid :: tags) ∉ fsInit.dirs := by
      intro h
      have := fsInit_dirs_short _ h
      simp at this
    simp [load_bqm, hd]
  · intro sid bid bqm tags
    have hdne : ("bqms" :: sid :: tags) ≠ ([] : List String) := by simp
    have hdnot : ("bqms" :: sid :: tags) ∉ fsInit.dirs := by
      intro h
      have := fsInit_dirs_short _ h
      simp at this
    have hdirs : (dump_bqm fsInit sid bid bqm tags).dirs
        = fsInit.dirs ++ (dirChain ("bqms" :: sid :: tags)).filter
            (fun p => decide (p ∉ fsInit.dirs)) := rfl
    have hfiles : (dump_bqm fsInit sid bid bqm tags).files
        = [("bqms" :: sid :: tags, bid, bqm)] := rfl
    have hmem : ("bqms" :: sid :: tags) ∈ (dump_bqm fsInit sid bid bqm tags).dirs := by
      rw [hdirs]
      refine List.mem_append.mpr (Or.inr (List.mem_filter.mpr
        ⟨mem_dirChain_self _ hdne, ?_⟩))
      simpa using hdnot
    have hchild : ∀ p ∈ (dump_bqm fsInit sid bid bqm tags).dirs,
        immediateChild ("bqms" :: sid :: tags) p = none := by
      intro p hp
      rw [hdirs] at hp
      rcases List.mem_append.mp hp with h | h
      · refine immediateChild_eq_none _ _ ?_
        have := fsInit_dirs_short _ h
        simp
        omega
      · exact immediateChild_eq_none _ _ (dirChain_length_le _ _ (List.mem_filter.mp h).1)
    have hlist : listdir (dump_bqm fsInit sid bid bqm tags) ("bqms" :: sid :: tags)
        = [bid] := by
      unfold listdir
      rw [hfiles, List.filterMap_eq_nil_iff.mpr hchild]
      simp
    have hfind : findFile (dump_bqm fsInit sid bid bqm tags) ("bqms" :: sid :: tags) bid
        = some bqm := by
      unfold findFile
      rw [hfiles]
      simp
    simp [load_bqm, hmem, hlist, hfind]

end Embera
